import Mathlib

/-!
Verification of the session-scoped challenge orchestrator (app2.js / app3.js
and the two client scripts) against its specification.

The JavaScript source is shallowly embedded: every route handler and helper
becomes a pure Lean function over an explicit session registry and an explicit
observation of the remote page, and every interaction with the Browser Session
Handle (puppeteer) is recorded as a `RemoteAction` in the result, so that
"no remote interaction happened" is the checkable statement `acts = []`.
-/

namespace InLinked

/-! ## Frame search (findAndClickStartPuzzleButton, app3.js 109-174 / app2.js 104-169)

A frame's in-page evaluation either returns whether a start-puzzle button was
found and clicked, or throws (the frame navigated away mid-traversal); the
source attaches `.catch(() => false)` to the evaluation, so a throw behaves
like `false`. -/

inductive EvalResult where
  | ok (b : Bool)
  | err
deriving DecidableEq

/-- The value `frame.evaluate(...).catch(() => false)` produces: a thrown
evaluation is mapped to `false`. -/
def evalToBool : EvalResult → Bool
  | .ok b => b
  | .err => false

mutual

/-- A frame: its own predicate-evaluation result plus its child frames in
document order (`frame.childFrames()`). -/
inductive Frame where
  | mk : EvalResult → FrameList → Frame

inductive FrameList where
  | nil : FrameList
  | cons : Frame → FrameList → FrameList

end

def Frame.eval : Frame → EvalResult
  | .mk ev _ => ev

def Frame.children : Frame → FrameList
  | .mk _ cs => cs

mutual

/-- Embedding of `findAndClickStartPuzzleButton`, instrumented to return the
child-index path of the frame whose button was clicked (`some path` is the
source returning `true`, `none` is the source returning `false`).  The root
frame is evaluated first; on failure (or a swallowed evaluation error) the
child frames are searched in order, recursing into a child before moving to
the next sibling, and the first successful subtree ends the search. -/
def findBtnPath : Frame → Option (List Nat)
  | .mk ev cs => if evalToBool ev then some [] else findBtnPathList cs 0

def findBtnPathList : FrameList → Nat → Option (List Nat)
  | .nil, _ => none
  | .cons f fs, i =>
    match findBtnPath f with
    | some p => some (i :: p)
    | none => findBtnPathList fs (i + 1)

end

mutual

/-- Depth-first preorder enumeration of a frame tree: the root node first,
then each child subtree in document order, each node paired with the path
leading to it.  This is the traversal order the specification describes. -/
def preorder : Frame → List (List Nat × EvalResult)
  | .mk ev cs => ([], ev) :: preorderList cs 0

def preorderList : FrameList → Nat → List (List Nat × EvalResult)
  | .nil, _ => []
  | .cons f fs, i =>
    (preorder f).map (fun pr => (i :: pr.1, pr.2)) ++ preorderList fs (i + 1)

end

/-! ## Puzzle tiles (handlePuzzleTiles, app3.js 40-74 / app2.js 35-69) -/

/-- What one frame exposes to `handlePuzzleTiles`: how many elements match the
tile selector, and the computed `background-image` style of the first tile
(if any). -/
structure TileFrame where
  tileCount : Nat
  firstTileBg : Option String
deriving DecidableEq

/-- Marker the source tests the background image against:
`backgroundImage.startsWith('url("blob:')`. -/
def blobUrlMarker : String := "url(\"blob:"

def charsStartWith : List Char → List Char → Bool
  | _, [] => true
  | [], _ :: _ => false
  | c :: cs, p :: ps => c == p && charsStartWith cs ps

def charsContain : List Char → List Char → Bool
  | [], pat => pat.isEmpty
  | c :: cs, pat => charsStartWith (c :: cs) pat || charsContain cs pat

/-- `String.prototype.slice(start, -fromEnd)` on the character list. -/
def sliceChars (l : List Char) (start fromEnd : Nat) : List Char :=
  (l.drop start).take ((l.drop start).length - fromEnd)

/-- `backgroundImage.slice(5, -2)` after the marker test. -/
def extractBlobUrl (bg : String) : Option String :=
  if charsStartWith bg.data blobUrlMarker.data then some ⟨sliceChars bg.data 5 2⟩
  else none

/-- Remote interactions with the Browser Session Handle (puppeteer calls). -/
inductive RemoteAction where
  | launchBrowser
  | newPage
  | setUserAgent
  | goto (url : String)
  | waitForSelector (sel : String)
  | typeText (sel text : String)
  | click (sel : String)
  | select (sel value : String)
  | evaluate (desc : String)
  | waitForNavigation
  | raceNavIdleTimer
  | readUrl
  | queryPasswordError
  | download
deriving DecidableEq

/-- Embedding of `handlePuzzleTiles`: the boolean the caller sees plus the
remote actions performed.  If exactly six tiles exist, the first tile's
background image is read; a blob URL found there is downloaded (relayed to
the artifact directory).  Every control path ends at the function's single
`return false`. -/
def handlePuzzleTilesActs (f : TileFrame) : Bool × List RemoteAction :=
  if f.tileCount == 6 then
    match f.firstTileBg.bind extractBlobUrl with
    | some u =>
        (false, [.evaluate "query tiles", .evaluate "first tile background",
                 .newPage, .goto u, .download])
    | none => (false, [.evaluate "query tiles", .evaluate "first tile background"])
  else (false, [.evaluate "query tiles"])

/-- The value `await handlePuzzleTiles(frame, ...)` yields to its caller. -/
def handlePuzzleTiles (f : TileFrame) : Bool := (handlePuzzleTilesActs f).1

/-! ## Captcha orchestration (handleCaptchaChallenge, app3.js 176-265) -/

/-- Stages the orchestrator can enter after completing one puzzle cycle. -/
inductive Stage where
  | puzzleSearch
  | awaitingOneTimeCode
deriving DecidableEq

/-- How one invocation of `handleCaptchaChallenge` ends. -/
inductive CaptchaResult where
  | codeStepEntered
  | verificationComplete
  | stalled
  | outOfRounds
deriving DecidableEq

/-- The environment of one puzzle round: whether the start-puzzle search
succeeded, what each of `page.frames()` exposes, and whether the page URL
changed within the 30-second wait after the tiles were handled. -/
structure CaptchaRound where
  buttonFound : Bool
  frames : List TileFrame
  urlChanged : Bool
deriving DecidableEq

/-- Embedding of `handleCaptchaChallenge`, parameterised by the tile handler
(so that the dead-branch argument can instantiate it with the real
`handlePuzzleTiles`).  Returns how the call chain ends together with the list
of stages entered after each completed cycle: recursing for another round
enters `puzzleSearch`; reaching two completed cycles enters the
verification-code step, `awaitingOneTimeCode`. -/
def handleCaptchaChallenge (th : TileFrame → Bool) :
    List CaptchaRound → Nat → CaptchaResult × List Stage
  | [], _ => (.outOfRounds, [])
  | r :: rest, challengeCount =>
    if r.buttonFound then
      if r.frames.any th then
        if r.urlChanged then
          if challengeCount + 1 ≥ 2 then
            (.codeStepEntered, [.awaitingOneTimeCode])
          else
            let next := handleCaptchaChallenge th rest (challengeCount + 1)
            (next.1, .puzzleSearch :: next.2)
        else (.stalled, [])
      else (.stalled, [])
    else (.verificationComplete, [])

/-! ## HTTP surface: registry, requests, responses -/

/-- Response payload: `res.send` of plain text, `res.json` with an `error`
field, or another structured JSON body. -/
inductive Body where
  | text (s : String)
  | jsonErr (s : String)
  | jsonTiles (tiles : List String)
  | json (tag : String)
deriving DecidableEq

structure HttpResponse where
  status : Nat
  body : Body
deriving DecidableEq

/-- A registry entry: the per-session puppeteer state `{ browser, page }`. -/
structure Session where
  browserId : Nat
deriving DecidableEq

/-- The process-wide `sessions` object, keyed by session id. -/
abbrev Registry := List (String × Session)

def keysNodup (reg : Registry) : Prop := (reg.map Prod.fst).Nodup

/-- JavaScript falsiness of an optional string field (`undefined` or `""`). -/
def strFalsy : Option String → Bool
  | none => true
  | some s => s == ""

def getStr (o : Option String) : String := o.getD ""

/-- `String.prototype.includes`: substring test. -/
def includes (s pat : String) : Bool := charsContain s.data pat.data

/-- `String.prototype.trim`, modelled on the character list. -/
def trimChars (l : List Char) : List Char :=
  ((l.dropWhile Char.isWhitespace).reverse.dropWhile Char.isWhitespace).reverse

def jsTrim (s : String) : String := ⟨trimChars s.data⟩

/-- Result of one route handler: the HTTP response, the remote actions
performed on the session's Browser Session Handle, and the registry after
the call. -/
structure ApiResult where
  resp : HttpResponse
  acts : List RemoteAction
  reg : Registry
deriving DecidableEq

/-- Result of a login route: additionally whether the captcha challenge flow
was started for the new session. -/
structure LoginResult where
  resp : HttpResponse
  acts : List RemoteAction
  reg : Registry
  challengeStarted : Bool
deriving DecidableEq

/-! ## Completion race after a tile click (app3.js 431-466) -/

/-- `page.waitForNavigation({ timeout: 10000 })`. -/
def tileNavTimeout : Nat := 10000

/-- `page.waitForNetworkIdle({ timeout: 10000 })`. -/
def tileIdleTimeout : Nat := 10000

/-- `new Promise((resolve) => setTimeout(resolve, 10000))`. -/
def tileFallbackDelay : Nat := 10000

/-- A bounded wait settles when it fires, or rejects when its timeout
expires, whichever is earlier. -/
def settleTime (fires timeoutMs : Nat) : Nat := min fires timeoutMs

/-- Settle time of the `Promise.race` over the three observations, as a
function of when the navigation and network-idle signals would fire. -/
def tileRaceSettle (navFires idleFires : Nat) : Nat :=
  min (settleTime navFires tileNavTimeout)
    (min (settleTime idleFires tileIdleTimeout) tileFallbackDelay)

inductive TileCheckResult where
  | lastcve
  | headerResult (h : Option String)
  | noChange
deriving DecidableEq

/-- The ground-truth verification after the race: re-read `page.url()` and
compare it to the pre-click baseline; only a genuine difference branches into
the changed cases (dead-end path or header text). -/
def tileUrlCheck (baseline newUrl : String) (headerText : Option String) :
    TileCheckResult :=
  if newUrl != baseline then
    if includes newUrl "/login-challenge-submit" then .lastcve
    else .headerResult headerText
  else .noChange

/-! ## Page observations consumed by the route handlers -/

/-- Page state read by the code / sms verification routes. -/
structure CodeObs where
  errorBannerVisible : Bool
  currentUrl : String
deriving DecidableEq

/-- Page state read by the phone routes. -/
structure PhoneObs where
  errorBannerVisible : Bool
  errorSpanText : Option String
  currentUrl : String
  headerText : Option String
deriving DecidableEq

/-- Page state read by the login-status route. -/
structure StatusObs where
  currentUrl : String
  headerText : Option String
  headerEvalDestroyed : Bool
deriving DecidableEq

/-- Page state read by the app2 login route after the credential navigation:
whether `#error-for-password` is present. -/
structure LoginObs where
  passwordErrorPresent : Bool
deriving DecidableEq

/-! ## Route handlers -/

/-- Remote actions of the credential-submission steps shared by both login
routes. -/
def loginActs (email password : String) : List RemoteAction :=
  [.launchBrowser, .newPage, .setUserAgent,
   .goto "https://www.linkedin.com/login",
   .waitForSelector "#username", .waitForSelector "#password",
   .typeText "#username" email, .typeText "#password" password,
   .click ".login__form_action_container button"]

/-- Embedding of app3.js `/api/linkedin/login` (lines 289-339): no inspection
of a password-rejection indicator occurs; once the session id is fresh the
session is registered, "1" is sent, and the captcha challenge flow starts.
`genId` is the `uuidv4()` value used when no session id was supplied; the
`LoginObs` argument is never consulted, mirroring the route. -/
def app3Login (reg : Registry) (sessionId email password : Option String)
    (genId : String) (obs : LoginObs) : LoginResult :=
  if strFalsy email then ⟨⟨400, .text "Email is required"⟩, [], reg, false⟩
  else
    match reg.lookup (if strFalsy sessionId then genId else getStr sessionId) with
    | some _ => ⟨⟨400, .text "Session already exists"⟩, [], reg, false⟩
    | none =>
        let _ := obs
        ⟨⟨200, .text "1"⟩, loginActs (getStr email) (getStr password),
         ((if strFalsy sessionId then genId else getStr sessionId), ⟨0⟩) :: reg,
         true⟩

/-- Embedding of app2.js `/api/linkedin/login` (lines 283-348): after the
credential navigation the route queries `#error-for-password`; if present it
answers "0" without registering the session or starting the challenge flow,
otherwise it registers the session, starts the challenge flow and answers
"1". -/
def app2Login (reg : Registry) (sessionId email password : Option String)
    (genId : String) (obs : LoginObs) : LoginResult :=
  if strFalsy email then ⟨⟨400, .text "Email is required"⟩, [], reg, false⟩
  else
    match reg.lookup (if strFalsy sessionId then genId else getStr sessionId) with
    | some _ => ⟨⟨400, .text "Session already exists"⟩, [], reg, false⟩
    | none =>
        let acts := loginActs (getStr email) (getStr password) ++
          [.waitForNavigation, .queryPasswordError]
        if obs.passwordErrorPresent then ⟨⟨200, .text "0"⟩, acts, reg, false⟩
        else
          ⟨⟨200, .text "1"⟩, acts,
           ((if strFalsy sessionId then genId else getStr sessionId), ⟨0⟩) :: reg,
           true⟩

/-- Per-frame scan of `/api/linkedin/security-verification`: each frame is
queried for tile HTML; the first frame with a non-null result answers
success. -/
def svLoop (reg : Registry) : List (Option (List String)) → List RemoteAction →
    ApiResult
  | [], acts => ⟨⟨404, .jsonErr "No puzzle tiles found"⟩, acts, reg⟩
  | t :: rest, acts =>
    let acts := acts ++ [.evaluate "query tiles html"]
    match t with
    | some tiles => ⟨⟨200, .jsonTiles tiles⟩, acts, reg⟩
    | none => svLoop reg rest acts

/-- Embedding of `/api/linkedin/security-verification` (app3.js 341-392).
`framesTiles` is what each of `page.frames()` would answer to the tile-HTML
query. -/
def securityVerification (reg : Registry) (sessionId : Option String)
    (framesTiles : List (Option (List String))) : ApiResult :=
  if strFalsy sessionId then ⟨⟨400, .text "Session ID is required"⟩, [], reg⟩
  else match reg.lookup (getStr sessionId) with
    | none => ⟨⟨400, .text "Session not found"⟩, [], reg⟩
    | some _ => svLoop reg framesTiles []

/-- JavaScript falsiness / range check on the tile number:
`!tileNumber || tileNumber < 1 || tileNumber > 6`. -/
def tileReject : Option Int → Bool
  | none => true
  | some n => n == 0 || n < 1 || n > 6

/-- Per-frame loop of `/api/linkedin/select-tile`: click the requested tile in
the first frame that has it, then run the completion race and the URL
comparison; when the URL did not genuinely change the loop moves on to the
remaining frames. -/
def selectTileLoop (reg : Registry) (baseUrl newUrl : String)
    (headerText : Option String) : List Bool → List RemoteAction → ApiResult
  | [], acts => ⟨⟨404, .jsonErr "No puzzle tiles found"⟩, acts, reg⟩
  | clicked :: rest, acts =>
    let acts := acts ++ [.evaluate "click tile"]
    if clicked then
      let acts := acts ++ [.readUrl, .raceNavIdleTimer, .readUrl]
      match tileUrlCheck baseUrl newUrl headerText with
      | .lastcve => ⟨⟨200, .text "lastcve"⟩, acts, reg⟩
      | .headerResult h =>
          ⟨⟨200, .text (h.getD "null")⟩, acts ++ [.evaluate "read header"], reg⟩
      | .noChange => selectTileLoop reg baseUrl newUrl headerText rest acts
    else selectTileLoop reg baseUrl newUrl headerText rest acts

/-- Embedding of `/api/linkedin/select-tile` (app3.js 394-494).  `frames`
records which of `page.frames()` contains the requested tile; `baseUrl` is
the pre-click address, `newUrl` the address re-read after the race. -/
def selectTile (reg : Registry) (sessionId : Option String)
    (tileNumber : Option Int) (frames : List Bool) (baseUrl newUrl : String)
    (headerText : Option String) : ApiResult :=
  if strFalsy sessionId then ⟨⟨400, .jsonErr "Session ID is required"⟩, [], reg⟩
  else if tileReject tileNumber then
    ⟨⟨400, .jsonErr "Valid tile number (1-6) is required"⟩, [], reg⟩
  else match reg.lookup (getStr sessionId) with
    | none => ⟨⟨400, .jsonErr "Session not found"⟩, [], reg⟩
    | some _ => selectTileLoop reg baseUrl newUrl headerText frames []

/-- Remote actions of the one-time-code submission steps. -/
def codeActs (code : String) : List RemoteAction :=
  [.waitForSelector "input[name=pin]", .waitForSelector "button[type=submit]",
   .evaluate "clear pin input", .typeText "input[name=pin]" code,
   .waitForNavigation, .click "button[type=submit]",
   .evaluate "query error banner"]

/-- Embedding of `/api/linkedin/verify-code` (app3.js 496-563): after the
submission, a visible error banner answers the retryable 400; otherwise the
address decides between the dead-end "lastcve" and success "1".  The
registry is never written. -/
def verifyCode (reg : Registry) (sessionId code : Option String)
    (obs : CodeObs) : ApiResult :=
  if strFalsy sessionId then ⟨⟨400, .jsonErr "Session ID is required"⟩, [], reg⟩
  else if strFalsy code then
    ⟨⟨400, .jsonErr "Verification code is required"⟩, [], reg⟩
  else match reg.lookup (getStr sessionId) with
    | none => ⟨⟨400, .jsonErr "Session not found"⟩, [], reg⟩
    | some _ =>
      if obs.errorBannerVisible then
        ⟨⟨400, .text "Invalid verification code. Please try again."⟩,
         codeActs (getStr code), reg⟩
      else if includes obs.currentUrl "/login-challenge-submit" then
        ⟨⟨200, .text "lastcve"⟩, codeActs (getStr code) ++ [.readUrl], reg⟩
      else ⟨⟨200, .text "1"⟩, codeActs (getStr code) ++ [.readUrl], reg⟩

/-- Embedding of `/api/linkedin/verify-sms` (app3.js 565-639): identical
decision structure to `verifyCode`. -/
def verifySms (reg : Registry) (sessionId code : Option String)
    (obs : CodeObs) : ApiResult :=
  if strFalsy sessionId then ⟨⟨400, .jsonErr "Session ID is required"⟩, [], reg⟩
  else if strFalsy code then
    ⟨⟨400, .jsonErr "Verification code is required"⟩, [], reg⟩
  else match reg.lookup (getStr sessionId) with
    | none => ⟨⟨400, .jsonErr "Session not found"⟩, [], reg⟩
    | some _ =>
      if obs.errorBannerVisible then
        ⟨⟨400, .text "Invalid verification code. Please try again."⟩,
         codeActs (getStr code), reg⟩
      else if includes obs.currentUrl "/login-challenge-submit" then
        ⟨⟨200, .text "lastcve"⟩, codeActs (getStr code) ++ [.readUrl], reg⟩
      else ⟨⟨200, .text "1"⟩, codeActs (getStr code) ++ [.readUrl], reg⟩

/-- Remote actions of the phone submission steps. -/
def phoneActs (phone countryCode : String) : List RemoteAction :=
  [.waitForSelector "#select-register-phone-country",
   .waitForSelector "#register-verification-phone-number",
   .waitForSelector "#register-phone-submit-button",
   .select "#select-register-phone-country" countryCode,
   .evaluate "clear phone input",
   .typeText "#register-verification-phone-number" phone,
   .waitForNavigation, .click "#register-phone-submit-button",
   .evaluate "query error banner"]

def apos : String := String.singleton (Char.ofNat 39)

def phoneVerifyMsg : String := "Let" ++ apos ++ "s verify your phone number"

/-- Embedding of `/api/linkedin/verify-phone` (app3.js 641-732).  Note that
no minimum-length validation of the phone number occurs here: any non-empty
phone string reaches the remote interaction. -/
def verifyPhone (reg : Registry) (sessionId phone countryCode : Option String)
    (obs : PhoneObs) : ApiResult :=
  if strFalsy sessionId then ⟨⟨400, .jsonErr "Session ID is required"⟩, [], reg⟩
  else if strFalsy phone then
    ⟨⟨400, .jsonErr "Phone number is required"⟩, [], reg⟩
  else if strFalsy countryCode then
    ⟨⟨400, .jsonErr "Country code is required"⟩, [], reg⟩
  else match reg.lookup (getStr sessionId) with
    | none => ⟨⟨400, .jsonErr "Session not found"⟩, [], reg⟩
    | some _ =>
      let acts := phoneActs (getStr phone) (getStr countryCode)
      if obs.errorBannerVisible then
        ⟨⟨400, .text ((obs.errorSpanText).getD
          "Invalid phone number. Please try again.")⟩,
         acts ++ [.evaluate "read error text"], reg⟩
      else if includes obs.currentUrl "/login-challenge-submit" then
        ⟨⟨200, .text "lastcve"⟩, acts ++ [.readUrl], reg⟩
      else match obs.headerText with
        | some h =>
          if includes h "verify your phone number" then
            ⟨⟨200, .text phoneVerifyMsg⟩, acts ++ [.readUrl, .evaluate "read header"], reg⟩
          else ⟨⟨200, .text "1"⟩, acts ++ [.readUrl, .evaluate "read header"], reg⟩
        | none => ⟨⟨200, .text "1"⟩, acts ++ [.readUrl, .evaluate "read header"], reg⟩

/-- Embedding of `/api/linkedin/update-phone` (app3.js 734-815): the same
steps as `verifyPhone` but with JSON bodies and no header-text branch. -/
def updatePhone (reg : Registry) (sessionId phone countryCode : Option String)
    (obs : PhoneObs) : ApiResult :=
  if strFalsy sessionId then ⟨⟨400, .jsonErr "Session ID is required"⟩, [], reg⟩
  else if strFalsy phone then
    ⟨⟨400, .jsonErr "Phone number is required"⟩, [], reg⟩
  else if strFalsy countryCode then
    ⟨⟨400, .jsonErr "Country code is required"⟩, [], reg⟩
  else match reg.lookup (getStr sessionId) with
    | none => ⟨⟨400, .jsonErr "Session not found"⟩, [], reg⟩
    | some _ =>
      let acts := phoneActs (getStr phone) (getStr countryCode)
      if obs.errorBannerVisible then
        ⟨⟨400, .jsonErr ((obs.errorSpanText).getD
          "Invalid phone number. Please try again.")⟩,
         acts ++ [.evaluate "read error text"], reg⟩
      else if includes obs.currentUrl "/login-challenge-submit" then
        ⟨⟨200, .json "redirect lastcve"⟩, acts ++ [.readUrl], reg⟩
      else ⟨⟨200, .json "success true"⟩, acts ++ [.readUrl], reg⟩

/-- Embedding of `/api/linkedin/check-login-status` (app3.js 817-870): a
missing or unknown session id is answered with the neutral "0" (status 200),
not with a "Session not found" rejection. -/
def checkLoginStatus (reg : Registry) (sessionId : Option String)
    (obs : StatusObs) : ApiResult :=
  if strFalsy sessionId then ⟨⟨200, .text "0"⟩, [], reg⟩
  else match reg.lookup (getStr sessionId) with
    | none => ⟨⟨200, .text "0"⟩, [], reg⟩
    | some _ =>
      if includes obs.currentUrl "feed" then ⟨⟨200, .text "1"⟩, [.readUrl], reg⟩
      else if obs.headerEvalDestroyed then
        ⟨⟨200, .text "1"⟩, [.readUrl, .evaluate "read header"], reg⟩
      else match obs.headerText with
        | some h => ⟨⟨200, .text h⟩, [.readUrl, .evaluate "read header"], reg⟩
        | none => ⟨⟨200, .text "0"⟩, [.readUrl, .evaluate "read header"], reg⟩

/-! ## Client-side phone submission (unnamed/part_000, handleSubmit) -/

inductive ClientOutcome where
  | shownError (msg : String)
  | navigatedHome
deriving DecidableEq

/-- Result of the client-side `handleSubmit`: what the user sees, whether the
server was contacted at all, and the remote (Browser Session Handle) actions
the server performed on this submission's behalf. -/
structure ClientResult where
  outcome : ClientOutcome
  serverCalled : Bool
  acts : List RemoteAction
deriving DecidableEq

/-- Embedding of `handleSubmit` (unnamed/part_000 lines 28-73): the phone
value is trimmed, then validated for presence and for the minimum length of
10 before any request leaves the client; only a valid phone is posted to
`/api/linkedin/update-phone`. -/
def handleSubmit (phoneRaw countryCode : String) (sessionId : Option String)
    (reg : Registry) (obs : PhoneObs) : ClientResult :=
  let phone := jsTrim phoneRaw
  if phone == "" then ⟨.shownError "Please enter a phone number", false, []⟩
  else if phone.length < 10 then
    ⟨.shownError "Please enter a valid phone number", false, []⟩
  else
    let r := updatePhone reg sessionId (some phone) (some countryCode) obs
    if r.resp.status != 200 then
      ⟨.shownError "An error occurred. Please try again.", true, r.acts⟩
    else match r.resp.body with
      | .jsonErr m => ⟨.shownError m, true, r.acts⟩
      | _ => ⟨.navigatedHome, true, r.acts⟩

/-! ## Helper lemmas -/

mutual

theorem findBtnPath_eq_preorder (t : Frame) :
    findBtnPath t = ((preorder t).find? fun pr => evalToBool pr.2).map Prod.fst := by
  cases t with
  | mk ev cs =>
    rw [findBtnPath, preorder]
    cases hev : evalToBool ev with
    | true => simp [List.find?_cons, hev]
    | false =>
      simp only [hev, if_false, List.find?_cons, Bool.false_eq_true]
      exact findBtnPathList_eq_preorder cs 0

theorem findBtnPathList_eq_preorder (cs : FrameList) (i : Nat) :
    findBtnPathList cs i =
      ((preorderList cs i).find? fun pr => evalToBool pr.2).map Prod.fst := by
  cases cs with
  | nil => simp [findBtnPathList, preorderList]
  | cons f fs =>
    have hcomp : ((fun pr : List Nat × EvalResult => evalToBool pr.2) ∘
        fun pr : List Nat × EvalResult => (i :: pr.1, pr.2)) =
        fun pr : List Nat × EvalResult => evalToBool pr.2 := rfl
    rw [findBtnPathList, preorderList, List.find?_append, List.find?_map, hcomp]
    have hf := findBtnPath_eq_preorder f
    cases hpf : (preorder f).find? fun pr => evalToBool pr.2 with
    | some pr =>
      rw [hpf] at hf
      rw [hf]
      rfl
    | none =>
      rw [hpf] at hf
      rw [hf]
      exact findBtnPathList_eq_preorder fs (i + 1)

end

theorem handlePuzzleTiles_false (f : TileFrame) : handlePuzzleTiles f = false := by
  simp only [handlePuzzleTiles, handlePuzzleTilesActs]
  split
  · split <;> rfl
  · rfl

theorem captcha_no_code_step (rounds : List CaptchaRound) (c : Nat) :
    (handleCaptchaChallenge handlePuzzleTiles rounds c).1 ≠ .codeStepEntered
    ∧ (handleCaptchaChallenge handlePuzzleTiles rounds c).2 = [] := by
  cases rounds with
  | nil => exact ⟨by simp [handleCaptchaChallenge], rfl⟩
  | cons r rest =>
    have hany : r.frames.any handlePuzzleTiles = false := by
      rw [List.any_eq_false]
      intro f hmem
      simp [handlePuzzleTiles_false f]
    by_cases hb : r.buttonFound = true
    · constructor <;> simp [handleCaptchaChallenge, hb, hany]
    · have hbf : r.buttonFound = false := by
        cases hrb : r.buttonFound
        · rfl
        · exact absurd hrb hb
      constructor <;> simp [handleCaptchaChallenge, hbf]

theorem not_mem_keys_of_lookup_none (reg : Registry) (k : String)
    (h : reg.lookup k = none) : k ∉ reg.map Prod.fst := by
  intro hmem
  rw [List.lookup_eq_none_iff] at h
  obtain ⟨p, hp, hpk⟩ := List.mem_map.mp hmem
  have hne := h p hp
  rw [hpk] at hne
  simp at hne

theorem svLoop_reg (reg : Registry) (ts : List (Option (List String)))
    (acts : List RemoteAction) : (svLoop reg ts acts).reg = reg := by
  induction ts generalizing acts with
  | nil => rfl
  | cons t rest ih => cases t <;> simp [svLoop, ih]

theorem selectTileLoop_reg (reg : Registry) (b n : String) (ht : Option String)
    (frames : List Bool) (acts : List RemoteAction) :
    (selectTileLoop reg b n ht frames acts).reg = reg := by
  induction frames generalizing acts with
  | nil => rfl
  | cons cl rest ih =>
    cases cl
    · simp [selectTileLoop, ih]
    · cases htc : tileUrlCheck b n ht <;> simp [selectTileLoop, htc, ih]

theorem securityVerification_reg (reg : Registry) (sidO : Option String)
    (ts : List (Option (List String))) :
    (securityVerification reg sidO ts).reg = reg := by
  unfold securityVerification
  split
  · rfl
  · split
    · rfl
    · exact svLoop_reg reg ts []

theorem selectTile_reg (reg : Registry) (sidO : Option String) (t : Option Int)
    (fr : List Bool) (b n : String) (ht : Option String) :
    (selectTile reg sidO t fr b n ht).reg = reg := by
  unfold selectTile
  split
  · rfl
  · split
    · rfl
    · split
      · rfl
      · exact selectTileLoop_reg reg b n ht fr []

theorem verifyCode_reg (reg : Registry) (sidO codeO : Option String)
    (obs : CodeObs) : (verifyCode reg sidO codeO obs).reg = reg := by
  unfold verifyCode
  repeat' split
  all_goals rfl

theorem verifySms_reg (reg : Registry) (sidO codeO : Option String)
    (obs : CodeObs) : (verifySms reg sidO codeO obs).reg = reg := by
  unfold verifySms
  repeat' split
  all_goals rfl

theorem verifyPhone_reg (reg : Registry) (sidO p cc : Option String)
    (obs : PhoneObs) : (verifyPhone reg sidO p cc obs).reg = reg := by
  unfold verifyPhone
  repeat' split
  all_goals rfl

theorem updatePhone_reg (reg : Registry) (sidO p cc : Option String)
    (obs : PhoneObs) : (updatePhone reg sidO p cc obs).reg = reg := by
  unfold updatePhone
  repeat' split
  all_goals rfl

theorem checkLoginStatus_reg (reg : Registry) (sidO : Option String)
    (obs : StatusObs) : (checkLoginStatus reg sidO obs).reg = reg := by
  unfold checkLoginStatus
  repeat' split
  all_goals rfl

/-! ## Claims -/

/-- Claim C2: the frame search evaluates the predicate on the root node
first, then on each child frame in document order, recursing into a child
subtree before moving to the next sibling; it returns the first match and
stops; a predicate-evaluation failure at a node is treated as no-match at
that node and traversal continues.  Formally: the clicked frame is exactly
the first node in depth-first preorder whose evaluation returned `true`, and
a tree whose root evaluation threw behaves identically to one whose root
evaluation returned `false`. -/
theorem claim2_frame_search_dfs (t : Frame) :
    (findBtnPath t =
      ((preorder t).find? fun pr => evalToBool pr.2).map Prod.fst)
    ∧ ∀ cs : FrameList,
        findBtnPath (.mk .err cs) = findBtnPath (.mk (.ok false) cs) :=
  ⟨findBtnPath_eq_preorder t, fun _ => rfl⟩

/-- Claim C3: once a puzzle cycle completes (button found, tiles handled,
URL changed) and the completed-cycle count reaches two, the orchestrator
enters the one-time-code step; below two it loops back to the puzzle-search
stage for another round. -/
theorem claim3_two_cycle_transition (th : TileFrame → Bool) (r : CaptchaRound)
    (rest : List CaptchaRound) (c : Nat)
    (hb : r.buttonFound = true) (ht : r.frames.any th = true)
    (hu : r.urlChanged = true) :
    (c + 1 ≥ 2 →
      handleCaptchaChallenge th (r :: rest) c =
        (.codeStepEntered, [.awaitingOneTimeCode]))
    ∧ (c + 1 < 2 →
      (handleCaptchaChallenge th (r :: rest) c).2.head? =
        some .puzzleSearch) := by
  constructor
  · intro h2
    simp [handleCaptchaChallenge, hb, ht, hu, h2]
  · intro h2
    have hn2 : ¬ c + 1 ≥ 2 := by omega
    simp [handleCaptchaChallenge, hb, ht, hu, hn2]

theorem claim3_witness :
    handleCaptchaChallenge (fun _ => true) [⟨true, [⟨0, none⟩], true⟩] 1 =
      (.codeStepEntered, [.awaitingOneTimeCode])
    ∧ (handleCaptchaChallenge (fun _ => true)
        [⟨true, [⟨0, none⟩], true⟩, ⟨true, [⟨0, none⟩], true⟩] 0).2.head? =
      some .puzzleSearch :=
  ⟨(claim3_two_cycle_transition (fun _ => true) ⟨true, [⟨0, none⟩], true⟩ []
      1 rfl rfl rfl).1 (by omega),
   (claim3_two_cycle_transition (fun _ => true) ⟨true, [⟨0, none⟩], true⟩
      [⟨true, [⟨0, none⟩], true⟩] 0 rfl rfl rfl).2 (by omega)⟩

/-- Claim C4: `handlePuzzleTiles` returns `false` for every input frame,
including when exactly six tiles are found and the first tile's blob image is
captured and relayed; consequently `handleCaptchaChallenge` driven by the
real `handlePuzzleTiles` never executes the tilesHandled branch: it never
enters the verification-code step and never records a completed cycle. -/
theorem claim4_tiles_dead_branch :
    (∀ f : TileFrame, handlePuzzleTiles f = false)
    ∧ ((handlePuzzleTilesActs ⟨6, some "url(\"blob:demo\")"⟩).1 = false
       ∧ RemoteAction.download ∈
           (handlePuzzleTilesActs ⟨6, some "url(\"blob:demo\")"⟩).2)
    ∧ ∀ (rounds : List CaptchaRound) (c : Nat),
        (handleCaptchaChallenge handlePuzzleTiles rounds c).1 ≠
          .codeStepEntered
        ∧ (handleCaptchaChallenge handlePuzzleTiles rounds c).2 = [] :=
  ⟨handlePuzzleTiles_false, ⟨by decide, by decide⟩,
   fun rounds c => captcha_no_code_step rounds c⟩

/-- Claim C5: the completion check after a tile click races a
navigation-completion signal, a network-idle signal and a fixed fallback
timer against the same 10000 ms budget (the race settles at the earliest of
the three, never after the budget), and afterwards the re-read page address
is compared to the pre-click baseline: a change is reported exactly when the
address genuinely differs. -/
theorem claim5_completion_race (navFires idleFires : Nat)
    (baseline newUrl : String) (headerText : Option String) :
    (tileNavTimeout = tileIdleTimeout ∧ tileIdleTimeout = tileFallbackDelay)
    ∧ tileRaceSettle navFires idleFires ≤ tileFallbackDelay
    ∧ tileRaceSettle navFires idleFires =
        min (min navFires idleFires) tileFallbackDelay
    ∧ (tileUrlCheck baseline newUrl headerText ≠ .noChange ↔
        newUrl ≠ baseline) := by
  refine ⟨⟨rfl, rfl⟩, ?_, ?_, ?_⟩
  · simp only [tileRaceSettle, settleTime, tileNavTimeout, tileIdleTimeout,
      tileFallbackDelay]
    omega
  · simp only [tileRaceSettle, settleTime, tileNavTimeout, tileIdleTimeout,
      tileFallbackDelay]
    omega
  · by_cases h : newUrl = baseline
    · subst h
      simp [tileUrlCheck]
    · simp only [tileUrlCheck, bne_iff_ne, ne_eq, h, not_false_eq_true,
        if_true, iff_true]
      split <;> simp

theorem app3Login_keys (reg : Registry) (sidO email password : Option String)
    (gen : String) (obs : LoginObs) (hnd : keysNodup reg) :
    keysNodup (app3Login reg sidO email password gen obs).reg := by
  unfold app3Login
  split
  · exact hnd
  · split
    · exact hnd
    · rename_i heq
      simp only [keysNodup, List.map_cons, List.nodup_cons]
      exact ⟨not_mem_keys_of_lookup_none _ _ heq, hnd⟩

/-- Claim C1: a phone submission whose trimmed phone value is shorter than
the minimum length 10 is answered by the submit-phone operation with a
validation outcome before the server is even contacted, so zero interactions
with the session's Browser Session Handle occur. -/
theorem claim1_phone_min_length (phoneRaw countryCode : String)
    (sessionId : Option String) (reg : Registry) (obs : PhoneObs)
    (hlen : (jsTrim phoneRaw).length < 10) :
    (∃ m, (handleSubmit phoneRaw countryCode sessionId reg obs).outcome =
       .shownError m)
    ∧ (handleSubmit phoneRaw countryCode sessionId reg obs).serverCalled = false
    ∧ (handleSubmit phoneRaw countryCode sessionId reg obs).acts = [] := by
  by_cases he : (jsTrim phoneRaw == "") = true
  · exact ⟨⟨"Please enter a phone number", by simp [handleSubmit, he]⟩,
      by simp [handleSubmit, he], by simp [handleSubmit, he]⟩
  · have he2 : (jsTrim phoneRaw == "") = false := by
      cases h2 : (jsTrim phoneRaw == "")
      · rfl
      · exact absurd h2 he
    exact ⟨⟨"Please enter a valid phone number",
        by simp [handleSubmit, he2, hlen]⟩,
      by simp [handleSubmit, he2, hlen], by simp [handleSubmit, he2, hlen]⟩

theorem claim1_witness :
    (handleSubmit "123" "+1" (some "s1") [] ⟨false, none, "u", none⟩).serverCalled
      = false
    ∧ (handleSubmit "123" "+1" (some "s1") [] ⟨false, none, "u", none⟩).acts
      = [] :=
  have h := claim1_phone_min_length "123" "+1" (some "s1") []
    ⟨false, none, "u", none⟩ (by decide)
  ⟨h.2.1, h.2.2⟩

/-- Claim C6: a one-time-code submission after which the error indicator is
visible is answered with the retryable invalid-code outcome and the session
registry entry is left unchanged (the caller may resubmit); with the
indicator absent, an address containing the dead-end path segment yields the
"lastcve" outcome, and otherwise the outcome is success "1". -/
theorem claim6_code_outcomes (reg : Registry) (sid code : String) (s : Session)
    (obs : CodeObs) (hsid : (sid == "") = false) (hcode : (code == "") = false)
    (hlook : reg.lookup sid = some s) :
    (verifyCode reg (some sid) (some code) obs).reg = reg
    ∧ (obs.errorBannerVisible = true →
        (verifyCode reg (some sid) (some code) obs).resp =
          ⟨400, .text "Invalid verification code. Please try again."⟩)
    ∧ (obs.errorBannerVisible = false →
        includes obs.currentUrl "/login-challenge-submit" = true →
        (verifyCode reg (some sid) (some code) obs).resp =
          ⟨200, .text "lastcve"⟩)
    ∧ (obs.errorBannerVisible = false →
        includes obs.currentUrl "/login-challenge-submit" = false →
        (verifyCode reg (some sid) (some code) obs).resp =
          ⟨200, .text "1"⟩) := by
  refine ⟨verifyCode_reg _ _ _ _, ?_, ?_, ?_⟩
  · intro herr
    simp [verifyCode, strFalsy, hsid, hcode, getStr, hlook, herr]
  · intro herr hurl
    simp [verifyCode, strFalsy, hsid, hcode, getStr, hlook, herr, hurl]
  · intro herr hurl
    simp [verifyCode, strFalsy, hsid, hcode, getStr, hlook, herr, hurl]

theorem claim6_witness :
    (verifyCode [("s1", ⟨0⟩)] (some "s1") (some "1234") ⟨true, "u"⟩).resp =
      ⟨400, .text "Invalid verification code. Please try again."⟩
    ∧ (verifyCode [("s1", ⟨0⟩)] (some "s1") (some "1234") ⟨true, "u"⟩).reg =
      [("s1", ⟨0⟩)] :=
  have h := claim6_code_outcomes [("s1", ⟨0⟩)] "s1" "1234" ⟨0⟩ ⟨true, "u"⟩
    (by decide) (by decide) (by decide)
  ⟨h.2.1 rfl, h.1⟩

/-- Claim C7: a create-session request whose supplied id already maps to a
live session is rejected with the session-already-exists outcome, performs
no remote action (in particular no Browser Session Handle is launched) and
leaves the registry untouched; the at-most-one-session-per-id invariant
(no duplicate keys) is preserved by the login operation, and every other
operation leaves the registry exactly unchanged. -/
theorem claim7_session_uniqueness :
    (∀ (reg : Registry) (sid : String) (email password : Option String)
        (gen : String) (obs : LoginObs) (s : Session),
        strFalsy email = false → (sid == "") = false →
        reg.lookup sid = some s →
        app3Login reg (some sid) email password gen obs =
          ⟨⟨400, .text "Session already exists"⟩, [], reg, false⟩)
    ∧ (∀ (reg : Registry) (sidO email password : Option String) (gen : String)
        (obs : LoginObs), keysNodup reg →
        keysNodup (app3Login reg sidO email password gen obs).reg)
    ∧ (∀ (reg : Registry) (sidO : Option String)
        (ts : List (Option (List String))),
        (securityVerification reg sidO ts).reg = reg)
    ∧ (∀ (reg : Registry) (sidO : Option String) (t : Option Int)
        (fr : List Bool) (b n : String) (ht : Option String),
        (selectTile reg sidO t fr b n ht).reg = reg)
    ∧ (∀ (reg : Registry) (sidO codeO : Option String) (obs : CodeObs),
        (verifyCode reg sidO codeO obs).reg = reg)
    ∧ (∀ (reg : Registry) (sidO codeO : Option String) (obs : CodeObs),
        (verifySms reg sidO codeO obs).reg = reg)
    ∧ (∀ (reg : Registry) (sidO p cc : Option String) (obs : PhoneObs),
        (verifyPhone reg sidO p cc obs).reg = reg)
    ∧ (∀ (reg : Registry) (sidO p cc : Option String) (obs : PhoneObs),
        (updatePhone reg sidO p cc obs).reg = reg)
    ∧ (∀ (reg : Registry) (sidO : Option String) (obs : StatusObs),
        (checkLoginStatus reg sidO obs).reg = reg) := by
  refine ⟨?_, app3Login_keys, securityVerification_reg, selectTile_reg,
    verifyCode_reg, verifySms_reg, verifyPhone_reg, updatePhone_reg,
    checkLoginStatus_reg⟩
  intro reg sid email password gen obs s hemail hsid hlook
  have hsidf : strFalsy (some sid) = false := by simp [strFalsy, hsid]
  simp [app3Login, hemail, hsidf, getStr, hlook]

theorem claim7_witness :
    app3Login [("s1", ⟨0⟩)] (some "s1") (some "a@b.c") (some "pw") "gen" ⟨false⟩
      = ⟨⟨400, .text "Session already exists"⟩, [], [("s1", ⟨0⟩)], false⟩
    ∧ keysNodup (app3Login [("s1", ⟨0⟩)] (some "s2") (some "a@b.c") (some "pw")
        "gen" ⟨false⟩).reg :=
  ⟨claim7_session_uniqueness.1 [("s1", ⟨0⟩)] "s1" (some "a@b.c") (some "pw")
      "gen" ⟨false⟩ ⟨0⟩ (by decide) (by decide) (by decide),
   claim7_session_uniqueness.2.1 [("s1", ⟨0⟩)] (some "s2") (some "a@b.c")
      (some "pw") "gen" ⟨false⟩ (by simp [keysNodup])⟩

/-- Claim C8: a tile-selection request whose tile number is missing, zero,
or outside 1..6 is rejected with the validation outcome for every registry
state (including one holding a newly created, untouched session), with no
remote action performed; the check precedes even the session lookup. -/
theorem claim8_tile_validation (reg : Registry) (sid : String)
    (t : Option Int) (frames : List Bool) (baseUrl newUrl : String)
    (headerText : Option String) (hsid : (sid == "") = false)
    (hreject : tileReject t = true) :
    selectTile reg (some sid) t frames baseUrl newUrl headerText =
      ⟨⟨400, .jsonErr "Valid tile number (1-6) is required"⟩, [], reg⟩ := by
  simp [selectTile, strFalsy, hsid, hreject]

theorem claim8_witness :
    selectTile [("s1", ⟨0⟩)] (some "s1") (some 7) [] "u" "u" none =
      ⟨⟨400, .jsonErr "Valid tile number (1-6) is required"⟩, [],
       [("s1", ⟨0⟩)]⟩
    ∧ selectTile [("s1", ⟨0⟩)] (some "s1") none [] "u" "u" none =
      ⟨⟨400, .jsonErr "Valid tile number (1-6) is required"⟩, [],
       [("s1", ⟨0⟩)]⟩ :=
  ⟨claim8_tile_validation [("s1", ⟨0⟩)] "s1" (some 7) [] "u" "u" none
      (by decide) (by decide),
   claim8_tile_validation [("s1", ⟨0⟩)] "s1" none [] "u" "u" none
      (by decide) (by decide)⟩

/-- Claim C9 counterexample: the claim that all stage-advancing operations,
including the login-status poll, answer an unresolved session id with the
same "session not found" outcome is false: on the empty registry and id
"s1", tile selection answers 400 "Session not found" while the login-status
poll answers 200 "0". -/
theorem claim9_counterexample :
    (selectTile [] (some "s1") (some 3) [] "u" "u" none).resp =
      ⟨400, .jsonErr "Session not found"⟩
    ∧ (checkLoginStatus [] (some "s1") ⟨"https://x", none, false⟩).resp =
      ⟨200, .text "0"⟩
    ∧ (selectTile [] (some "s1") (some 3) [] "u" "u" none).resp ≠
      (checkLoginStatus [] (some "s1") ⟨"https://x", none, false⟩).resp := by
  refine ⟨rfl, rfl, by decide⟩

/-- Claim C9 amended: every stage-advancing operation except the
login-status poll answers an unresolved session id with HTTP 400 and the
message "Session not found" (the challenge-controls fetch as plain text, the
others as a JSON error field), performing no remote action; the login-status
poll instead answers the neutral not-logged-in outcome "0" with status
200. -/
theorem claim9_amended (reg : Registry) (sid : String) (t : Int)
    (code phone cc : String) (frames : List Bool)
    (ts : List (Option (List String))) (baseUrl newUrl : String)
    (headerText : Option String) (cobs : CodeObs) (pobs : PhoneObs)
    (sobs : StatusObs)
    (hsid : (sid == "") = false) (hnone : reg.lookup sid = none)
    (htile : tileReject (some t) = false)
    (hcode : (code == "") = false) (hphone : (phone == "") = false)
    (hcc : (cc == "") = false) :
    securityVerification reg (some sid) ts =
      ⟨⟨400, .text "Session not found"⟩, [], reg⟩
    ∧ selectTile reg (some sid) (some t) frames baseUrl newUrl headerText =
      ⟨⟨400, .jsonErr "Session not found"⟩, [], reg⟩
    ∧ verifyCode reg (some sid) (some code) cobs =
      ⟨⟨400, .jsonErr "Session not found"⟩, [], reg⟩
    ∧ verifySms reg (some sid) (some code) cobs =
      ⟨⟨400, .jsonErr "Session not found"⟩, [], reg⟩
    ∧ verifyPhone reg (some sid) (some phone) (some cc) pobs =
      ⟨⟨400, .jsonErr "Session not found"⟩, [], reg⟩
    ∧ checkLoginStatus reg (some sid) sobs = ⟨⟨200, .text "0"⟩, [], reg⟩ := by
  refine ⟨?_, ?_, ?_, ?_, ?_, ?_⟩
  · simp [securityVerification, strFalsy, hsid, getStr, hnone]
  · simp [selectTile, strFalsy, hsid, htile, getStr, hnone]
  · simp [verifyCode, strFalsy, hsid, hcode, getStr, hnone]
  · simp [verifySms, strFalsy, hsid, hcode, getStr, hnone]
  · simp [verifyPhone, strFalsy, hsid, hphone, hcc, getStr, hnone]
  · simp [checkLoginStatus, strFalsy, hsid, getStr, hnone]

theorem claim9_witness :
    verifyCode [] (some "s1") (some "1234") ⟨false, "u"⟩ =
      ⟨⟨400, .jsonErr "Session not found"⟩, [], []⟩
    ∧ checkLoginStatus [] (some "s1") ⟨"u", none, false⟩ =
      ⟨⟨200, .text "0"⟩, [], []⟩ :=
  have h := claim9_amended [] "s1" 3 "1234" "5551234567" "+1" [] [] "u" "u"
    none ⟨false, "u"⟩ ⟨false, none, "u", none⟩ ⟨"u", none, false⟩
    (by decide) (by decide) (by decide) (by decide) (by decide) (by decide)
  ⟨h.2.2.1, h.2.2.2.2.2⟩

/-- Claim C10 counterexample: the claim that every credential submission
inspects the page for a password-rejection indicator and registers the
session only when it is absent is false for the app3 login route: at a
concrete input whose page observation has the indicator present, the route
still registers the session, starts the challenge flow, answers "1", and
its action trace contains no password-error query at all. -/
theorem claim10_counterexample :
    (app3Login [] (some "s1") (some "u@x") (some "pw") "gen" ⟨true⟩).reg =
      [("s1", ⟨0⟩)]
    ∧ (app3Login [] (some "s1") (some "u@x") (some "pw") "gen"
        ⟨true⟩).challengeStarted = true
    ∧ (app3Login [] (some "s1") (some "u@x") (some "pw") "gen" ⟨true⟩).resp =
      ⟨200, .text "1"⟩
    ∧ RemoteAction.queryPasswordError ∉
        (app3Login [] (some "s1") (some "u@x") (some "pw") "gen" ⟨true⟩).acts
      := by
  refine ⟨rfl, rfl, rfl, by decide⟩

/-- Claim C10 amended: the app2 login route inspects the password-rejection
indicator after the credential navigation and, when it is present, answers
the authentication-failed outcome "0" without registering the session or
starting the challenge flow, registering and starting only when it is
absent; the app3 login route performs no such inspection and registers the
session and starts the challenge flow unconditionally once the session id is
fresh. -/
theorem claim10_amended (reg : Registry) (sid : String)
    (email password : Option String) (gen : String) (obs : LoginObs)
    (hemail : strFalsy email = false) (hsid : (sid == "") = false)
    (hfresh : reg.lookup sid = none) :
    (obs.passwordErrorPresent = true →
      app2Login reg (some sid) email password gen obs =
        ⟨⟨200, .text "0"⟩,
         loginActs (getStr email) (getStr password) ++
           [.waitForNavigation, .queryPasswordError],
         reg, false⟩)
    ∧ (obs.passwordErrorPresent = false →
      (app2Login reg (some sid) email password gen obs).reg =
        (sid, ⟨0⟩) :: reg
      ∧ (app2Login reg (some sid) email password gen obs).challengeStarted =
        true
      ∧ (app2Login reg (some sid) email password gen obs).resp =
        ⟨200, .text "1"⟩)
    ∧ (∀ o : LoginObs,
      (app3Login reg (some sid) email password gen o).reg = (sid, ⟨0⟩) :: reg
      ∧ (app3Login reg (some sid) email password gen o).challengeStarted =
        true
      ∧ RemoteAction.queryPasswordError ∉
          (app3Login reg (some sid) email password gen o).acts) := by
  have hsidf : strFalsy (some sid) = false := by simp [strFalsy, hsid]
  refine ⟨?_, ?_, ?_⟩
  · intro hperr
    simp [app2Login, hemail, hsidf, getStr, hfresh, hperr]
  · intro hperr
    refine ⟨?_, ?_, ?_⟩ <;>
      simp [app2Login, hemail, hsidf, getStr, hfresh, hperr]
  · intro o
    refine ⟨?_, ?_, ?_⟩ <;>
      simp [app3Login, hemail, hsidf, getStr, hfresh, loginActs]

theorem claim10_witness :
    app2Login [] (some "s1") (some "u@x") (some "pw") "gen" ⟨true⟩ =
      ⟨⟨200, .text "0"⟩,
       loginActs "u@x" "pw" ++ [.waitForNavigation, .queryPasswordError],
       [], false⟩
    ∧ (app2Login [] (some "s1") (some "u@x") (some "pw") "gen" ⟨false⟩).reg =
      [("s1", ⟨0⟩)] :=
  have h := claim10_amended [] "s1" (some "u@x") (some "pw") "gen" ⟨true⟩
    (by decide) (by decide) (by decide)
  have h2 := claim10_amended [] "s1" (some "u@x") (some "pw") "gen" ⟨false⟩
    (by decide) (by decide) (by decide)
  ⟨h.1 rfl, (h2.2.1 rfl).1⟩

end InLinked
